import Mathlib

/-!
Shallow embedding of the qontinui-supervisor seeding scripts.

Python dicts (the JSON payloads the scripts construct) are modelled as
association lists from string keys to JSON-like values, in insertion order.
Each script's helper functions are translated one-to-one; the concrete
workflow payloads each script builds at import time are transcribed as
concrete Lean terms.
-/

/-- A JSON-like value, as produced by the scripts' dict/list/str/int/bool
literals. -/
inductive Val : Type where
  | str : String → Val
  | int : Int → Val
  | bool : Bool → Val
  | vlist : List Val → Val
  | obj : List (String × Val) → Val

/-- A step is a Python dict: an association list of string keys to values,
in insertion order. -/
def Step : Type := List (String × Val)

instance : Inhabited Step := ⟨([] : List (String × Val))⟩

/-- Look up a key in a step dict. -/
def getVal (s : Step) (k : String) : Option Val :=
  (List.find? (fun p => p.1 == k) s).map (fun p => p.2)

/-- Look up a key expected to hold a string. -/
def getStr (s : Step) (k : String) : Option String :=
  match getVal s k with
  | some (Val.str v) => some v
  | _ => none

/-- Python subscript `d[k]`: the scripts only subscript keys they inserted,
so the KeyError branch is modelled by a default that is never reached on the
scripts' data. -/
def pyGet (s : Step) (k : String) : Val :=
  (getVal s k).getD (Val.str "")

/-- The workflow payload shape shared by all three seeding scripts: a dict
with a name, description, category, tags, the four phase-keyed step lists
and an iteration budget. -/
structure Workflow : Type where
  name : String
  description : String
  category : String
  tags : List String
  setup_steps : List Step
  verification_steps : List Step
  agentic_steps : List Step
  completion_steps : List Step
  max_iterations : Nat

/-- All steps of a workflow, across the four phase lists. -/
def Workflow.allSteps (w : Workflow) : List Step :=
  w.setup_steps ++ w.verification_steps ++ w.agentic_steps ++ w.completion_steps

/-- The three step types of the current system
(update_generation_rules_3types.py). -/
def validTypes : List String := ["command", "ui_bridge", "prompt"]

/-- A step's `type` is one of the three valid types. -/
def stepTypeValid (s : Step) : Bool :=
  match getStr s "type" with
  | some t => validTypes.contains t
  | none => false

/-- A gate step: carries `required_steps` (or the legacy `gate` type). -/
def isGateB (s : Step) : Bool :=
  (getVal s "required_steps").isSome || (getStr s "type" == some "gate")

/-- `C:\Users\jspin\Documents\qontinui_parent`, the base path used by the
seeding scripts. -/
def WS : String := "C:\\Users\\jspin\\Documents\\qontinui_parent"

namespace SeedGt

/-! Embedding of src/scripts/seed_gt_workflows_to_runner.py. -/

/-- `api_post`: the underlying request/parse outcome is passed explicitly;
the `try` body returns the parsed response, the `except` branch returns
`{"error": str(e)}`. -/
def api_post (outcome : Except String Val) : Val :=
  match outcome with
  | Except.ok v => v
  | Except.error e => Val.obj [("error", Val.str e)]

/-- `api_get`: same try/except shape as `api_post`. -/
def api_get (outcome : Except String Val) : Val :=
  match outcome with
  | Except.ok v => v
  | Except.error e => Val.obj [("error", Val.str e)]

/-- `api_delete`: same try/except shape as `api_post`. -/
def api_delete (outcome : Except String Val) : Val :=
  match outcome with
  | Except.ok v => v
  | Except.error e => Val.obj [("error", Val.str e)]

/-- `make_check`: a command step with `check_type` set. -/
def make_check (check_id name check_type tool command working_dir : String) :
    Step :=
  [("id", Val.str check_id),
   ("type", Val.str "command"),
   ("name", Val.str name),
   ("phase", Val.str "verification"),
   ("check_type", Val.str check_type),
   ("tool", Val.str tool),
   ("command", Val.str command),
   ("working_directory", Val.str working_dir)]

/-- `make_command`: a plain command step; `working_directory` is inserted
when `working_dir` is given, then the keyword arguments are appended. -/
def make_command (step_id name phase command : String)
    (working_dir : Option String) (kwargs : List (String × Val)) : Step :=
  [("id", Val.str step_id),
   ("type", Val.str "command"),
   ("name", Val.str name),
   ("phase", Val.str phase),
   ("command", Val.str command)]
  ++ (match working_dir with
      | some wd => [("working_directory", Val.str wd)]
      | none => [])
  ++ kwargs

/-- `make_test`: a command step with `test_type` set. -/
def make_test (step_id name test_type command : String)
    (working_dir : Option String) (kwargs : List (String × Val)) : Step :=
  [("id", Val.str step_id),
   ("type", Val.str "command"),
   ("name", Val.str name),
   ("phase", Val.str "verification"),
   ("test_type", Val.str test_type),
   ("command", Val.str command)]
  ++ (match working_dir with
      | some wd => [("working_directory", Val.str wd)]
      | none => [])
  ++ kwargs

/-- `make_prompt`: a prompt step. -/
def make_prompt (step_id name phase content : String) : Step :=
  [("id", Val.str step_id),
   ("type", Val.str "prompt"),
   ("name", Val.str name),
   ("phase", Val.str phase),
   ("content", Val.str content)]

/-- `make_agentic`: the standard agentic fix step. -/
def make_agentic (content : String) : Step :=
  [("id", Val.str "step-fix"),
   ("type", Val.str "prompt"),
   ("name", Val.str "Fix issues"),
   ("phase", Val.str "agentic"),
   ("content", Val.str content)]

/-- The default `make_agentic()` content. -/
def default_fix_content : String :=
  "Fix any check failures found in the verification phase."

/-- `add_gt`: the workflow dict appended to GT_WORKFLOWS.  Defaults
(`tags=None` etc.) are resolved at each call site below, as in the source. -/
def add_gt (name description : String) (checks : List Step)
    (tags : List String) (setup : List Step) (agentic : List Step)
    (completion : List Step) (max_iterations : Nat) : Workflow :=
  { name := name
  , description := description
  , category := "ground_truth"
  , tags := tags
  , setup_steps := setup
  , verification_steps := checks
  , agentic_steps := agentic
  , completion_steps := completion
  , max_iterations := max_iterations }

/-- Default tags of `add_gt` (used when `tags=None`). -/
def default_tags : List String := ["ground_truth", "command", "reference"]

/-- GT: qontinui-web code quality checks. -/
def wf_web : Workflow :=
  add_gt "GT: qontinui-web code quality checks"
    ("Run all code quality checks on the qontinui-web repository at "
      ++ WS ++ "\\qontinui-web. "
      ++ "This is a full-stack project with a Python (FastAPI) backend and TypeScript (Next.js) frontend.")
    [ make_check "check-ruff-lint" "Python lint (ruff)" "lint" "ruff"
        "ruff check ." (WS ++ "\\qontinui-web\\backend")
    , make_check "check-ruff-format" "Python format (ruff)" "format" "ruff"
        "ruff format --check ." (WS ++ "\\qontinui-web\\backend")
    , make_check "check-mypy" "Python type check (mypy)" "typecheck" "mypy"
        "mypy ." (WS ++ "\\qontinui-web\\backend")
    , make_check "check-eslint" "TypeScript lint (ESLint)" "lint" "eslint"
        "npx eslint ." (WS ++ "\\qontinui-web\\frontend")
    , make_check "check-tsc" "TypeScript type check" "typecheck" "tsc"
        "npx tsc --noEmit" (WS ++ "\\qontinui-web\\frontend")
    , make_check "check-prettier" "Prettier format check" "format" "prettier"
        "npx prettier --check ." (WS ++ "\\qontinui-web\\frontend") ]
    default_tags [] [make_agentic default_fix_content] [] 5

/-- GT: qontinui-web backend Python checks. -/
def wf_backend : Workflow :=
  add_gt "GT: qontinui-web backend Python checks"
    ("Run code quality checks on the qontinui-web backend (Python) at "
      ++ WS ++ "\\qontinui-web\\backend. "
      ++ "This is a Python FastAPI project using ruff for linting/formatting and mypy for type checking.")
    [ make_check "check-ruff-lint" "Python lint (ruff)" "lint" "ruff"
        "ruff check ." (WS ++ "\\qontinui-web\\backend")
    , make_check "check-ruff-format" "Python format (ruff)" "format" "ruff"
        "ruff format --check ." (WS ++ "\\qontinui-web\\backend")
    , make_check "check-mypy" "Python type check (mypy)" "typecheck" "mypy"
        "mypy ." (WS ++ "\\qontinui-web\\backend") ]
    default_tags [] [make_agentic default_fix_content] [] 5

/-- GT: qontinui-web frontend TypeScript checks. -/
def wf_frontend : Workflow :=
  add_gt "GT: qontinui-web frontend TypeScript checks"
    ("Run code quality checks on the qontinui-web frontend (TypeScript/React) at "
      ++ WS ++ "\\qontinui-web\\frontend. "
      ++ "This is a Next.js TypeScript project using ESLint, TypeScript compiler, and Prettier.")
    [ make_check "check-eslint" "TypeScript lint (ESLint)" "lint" "eslint"
        "npx eslint ." (WS ++ "\\qontinui-web\\frontend")
    , make_check "check-tsc" "TypeScript type check" "typecheck" "tsc"
        "npx tsc --noEmit" (WS ++ "\\qontinui-web\\frontend")
    , make_check "check-prettier" "Prettier format check" "format" "prettier"
        "npx prettier --check ." (WS ++ "\\qontinui-web\\frontend") ]
    default_tags [] [make_agentic default_fix_content] [] 5

/-- GT: qontinui core library Python checks. -/
def wf_core : Workflow :=
  add_gt "GT: qontinui core library Python checks"
    ("Run code quality checks on the qontinui core Python library at "
      ++ WS ++ "\\qontinui. "
      ++ "This is a Python library using black for formatting, ruff for linting, and mypy for type checking.")
    [ make_check "check-black" "Python format (black)" "format" "black"
        "black --check --line-length=100 ." (WS ++ "\\qontinui")
    , make_check "check-ruff" "Python lint (ruff)" "lint" "ruff"
        "ruff check ." (WS ++ "\\qontinui")
    , make_check "check-mypy" "Python type check (mypy)" "typecheck" "mypy"
        "mypy -p qontinui" (WS ++ "\\qontinui") ]
    default_tags [] [make_agentic default_fix_content] [] 5

/-- GT: qontinui-runner code quality checks. -/
def wf_runner : Workflow :=
  add_gt "GT: qontinui-runner code quality checks"
    ("Run all code quality checks on the qontinui-runner repository at "
      ++ WS ++ "\\qontinui-runner. "
      ++ "This is a Tauri desktop app with a Rust backend and TypeScript frontend. "
      ++ "Uses cargo fmt/clippy for Rust and ESLint/tsc/Prettier for TypeScript.")
    [ make_check "check-cargo-fmt" "Rust format (cargo fmt)" "format" "cargo"
        "cargo fmt -- --check" (WS ++ "\\qontinui-runner\\src-tauri")
    , make_check "check-cargo-clippy" "Rust lint (cargo clippy)" "lint" "cargo"
        "cargo clippy -- -D warnings" (WS ++ "\\qontinui-runner\\src-tauri")
    , make_check "check-eslint" "TypeScript lint (ESLint)" "lint" "eslint"
        "npx eslint ." (WS ++ "\\qontinui-runner")
    , make_check "check-tsc" "TypeScript type check" "typecheck" "tsc"
        "npx tsc --noEmit" (WS ++ "\\qontinui-runner")
    , make_check "check-prettier" "Prettier format check" "format" "prettier"
        "npx prettier --check \x27src/**/*.\x7bts,tsx\x7d\x27" (WS ++ "\\qontinui-runner") ]
    default_tags [] [make_agentic default_fix_content] [] 5

/-- GT: qontinui-supervisor Rust checks. -/
def wf_supervisor : Workflow :=
  add_gt "GT: qontinui-supervisor Rust checks"
    ("Run code quality checks on the qontinui-supervisor (Rust) at "
      ++ WS ++ "\\qontinui-supervisor. "
      ++ "This is a pure Rust project using cargo fmt for formatting and cargo clippy for linting.")
    [ make_check "check-cargo-fmt" "Rust format (cargo fmt)" "format" "cargo"
        "cargo fmt -- --check" (WS ++ "\\qontinui-supervisor")
    , make_check "check-cargo-clippy" "Rust lint (cargo clippy)" "lint" "cargo"
        "cargo clippy -- -D warnings" (WS ++ "\\qontinui-supervisor") ]
    default_tags [] [make_agentic default_fix_content] [] 5

/-- GT: multistate Python library checks. -/
def wf_multistate : Workflow :=
  add_gt "GT: multistate Python library checks"
    ("Run code quality checks on the multistate Python library at "
      ++ WS ++ "\\multistate. "
      ++ "This is a Python library using black for formatting, ruff for linting, and mypy for type checking.")
    [ make_check "check-black" "Python format (black)" "format" "black"
        "black --check --line-length=100 ." (WS ++ "\\multistate")
    , make_check "check-ruff" "Python lint (ruff)" "lint" "ruff"
        "ruff check ." (WS ++ "\\multistate")
    , make_check "check-mypy" "Python type check (mypy)" "typecheck" "mypy"
        "mypy ." (WS ++ "\\multistate") ]
    default_tags [] [make_agentic default_fix_content] [] 5

/-- GT: Full stack code quality checks. -/
def wf_full_stack : Workflow :=
  add_gt "GT: Full stack code quality checks"
    ("Run code quality checks across all qontinui repositories "
      ++ "(web backend at " ++ WS ++ "\\qontinui-web\\backend, web frontend at "
      ++ WS ++ "\\qontinui-web\\frontend, "
      ++ "runner at " ++ WS ++ "\\qontinui-runner, supervisor at "
      ++ WS ++ "\\qontinui-supervisor). "
      ++ "Covers Python (ruff, mypy), TypeScript (ESLint, tsc, Prettier), and Rust (cargo fmt, clippy).")
    [ make_check "check-web-backend-ruff-lint" "Web backend: ruff lint" "lint" "ruff"
        "ruff check ." (WS ++ "\\qontinui-web\\backend")
    , make_check "check-web-backend-ruff-format" "Web backend: ruff format" "format" "ruff"
        "ruff format --check ." (WS ++ "\\qontinui-web\\backend")
    , make_check "check-web-backend-mypy" "Web backend: mypy" "typecheck" "mypy"
        "mypy ." (WS ++ "\\qontinui-web\\backend")
    , make_check "check-web-frontend-eslint" "Web frontend: ESLint" "lint" "eslint"
        "npx eslint ." (WS ++ "\\qontinui-web\\frontend")
    , make_check "check-web-frontend-tsc" "Web frontend: tsc" "typecheck" "tsc"
        "npx tsc --noEmit" (WS ++ "\\qontinui-web\\frontend")
    , make_check "check-web-frontend-prettier" "Web frontend: Prettier" "format" "prettier"
        "npx prettier --check ." (WS ++ "\\qontinui-web\\frontend")
    , make_check "check-runner-cargo-fmt" "Runner: cargo fmt" "format" "cargo"
        "cargo fmt -- --check" (WS ++ "\\qontinui-runner\\src-tauri")
    , make_check "check-runner-clippy" "Runner: cargo clippy" "lint" "cargo"
        "cargo clippy -- -D warnings" (WS ++ "\\qontinui-runner\\src-tauri")
    , make_check "check-runner-eslint" "Runner: ESLint" "lint" "eslint"
        "npx eslint ." (WS ++ "\\qontinui-runner")
    , make_check "check-runner-tsc" "Runner: tsc" "typecheck" "tsc"
        "npx tsc --noEmit" (WS ++ "\\qontinui-runner")
    , make_check "check-runner-prettier" "Runner: Prettier" "format" "prettier"
        "npx prettier --check \x27src/**/*.\x7bts,tsx\x7d\x27" (WS ++ "\\qontinui-runner")
    , make_check "check-supervisor-cargo-fmt" "Supervisor: cargo fmt" "format" "cargo"
        "cargo fmt -- --check" (WS ++ "\\qontinui-supervisor")
    , make_check "check-supervisor-clippy" "Supervisor: cargo clippy" "lint" "cargo"
        "cargo clippy -- -D warnings" (WS ++ "\\qontinui-supervisor") ]
    default_tags [] [make_agentic default_fix_content] [] 5

/-- GT: qontinui-web frontend UI verification. -/
def wf_ui_verification : Workflow :=
  add_gt "GT: qontinui-web frontend UI verification"
    ("Verify the qontinui-web frontend at http://localhost:3001 is working correctly. "
      ++ "Connect to the UI Bridge SDK, navigate to key pages, and verify elements render properly. "
      ++ "Fix any frontend issues found.")
    [ make_command "verify-navigate" "Navigate to target page" "verification"
        ("curl -sf -X POST http://localhost:9876/ui-bridge/sdk/page/navigate "
          ++ "-H \"Content-Type: application/json\" "
          ++ "-d \"\x7b\\\"url\\\": \\\"http://localhost:3001/build/workflows\\\"\x7d\"")
        none
        [("fail_on_error", Val.bool true),
         ("retry", Val.obj [("count", Val.int 3), ("delay_ms", Val.int 3000)])]
    , make_command "verify-snapshot" "Verify page elements loaded" "verification"
        "curl -sf http://localhost:9876/ui-bridge/sdk/snapshot | grep \"elements\""
        none
        [("fail_on_error", Val.bool true),
         ("retry", Val.obj [("count", Val.int 3), ("delay_ms", Val.int 3000)])]
    , make_check "verify-eslint" "TypeScript lint (ESLint)" "lint" "eslint"
        "npx eslint ." (WS ++ "\\qontinui-web\\frontend")
    , make_check "verify-tsc" "TypeScript type check" "typecheck" "tsc"
        "npx tsc --noEmit" (WS ++ "\\qontinui-web\\frontend") ]
    ["ground_truth", "ui_bridge", "command", "web", "reference"]
    [ make_command "setup-sdk-connect" "Connect UI Bridge SDK" "setup"
        ("curl -sf -X POST http://localhost:9876/ui-bridge/sdk/connect "
          ++ "-H \"Content-Type: application/json\" "
          ++ "-d \"\x7b\\\"url\\\": \\\"http://localhost:3001\\\"\x7d\"")
        none [("fail_on_error", Val.bool true)]
    , make_command "setup-navigate" "Navigate to workflows page" "setup"
        ("curl -sf -X POST http://localhost:9876/ui-bridge/sdk/page/navigate "
          ++ "-H \"Content-Type: application/json\" "
          ++ "-d \"\x7b\\\"url\\\": \\\"http://localhost:3001/build/workflows\\\"\x7d\"")
        none [] ]
    [ make_agentic
        ("Fix any issues found in the verification phase. For UI rendering issues, "
          ++ "inspect the component code and fix JSX/CSS problems. For lint/type errors, "
          ++ "fix the TypeScript source. Use sdk_snapshot and sdk_elements tools to inspect "
          ++ "the current page state and identify what\x27s wrong.") ]
    [] 5

/-- GT: qontinui-web backend tests and checks. -/
def wf_backend_tests : Workflow :=
  add_gt "GT: qontinui-web backend tests and checks"
    ("Run the qontinui-web backend test suite and code quality checks at "
      ++ WS ++ "\\qontinui-web\\backend. "
      ++ "Runs pytest for unit/integration tests along with ruff and mypy. Fixes any failures.")
    [ make_test "verify-pytest" "Run pytest" "repository"
        "poetry run pytest -x --tb=short" (some (WS ++ "\\qontinui-web\\backend")) []
    , make_check "verify-ruff-lint" "Python lint (ruff)" "lint" "ruff"
        "ruff check ." (WS ++ "\\qontinui-web\\backend")
    , make_check "verify-mypy" "Python type check (mypy)" "typecheck" "mypy"
        "mypy ." (WS ++ "\\qontinui-web\\backend") ]
    ["ground_truth", "command", "test", "python", "reference"]
    []
    [ make_agentic
        ("Fix any test failures or code quality issues found in the verification phase. "
          ++ "For test failures, read the test output carefully and fix the implementation code "
          ++ "(not the tests) unless the tests are clearly wrong. For lint/type errors, fix the "
          ++ "source code to comply with the project\x27s coding standards.") ]
    [] 5

/-- GT: Web frontend feature development. -/
def wf_feature_dev : Workflow :=
  add_gt "GT: Web frontend feature development"
    ("Develop a feature on the qontinui-web frontend. Sets up the environment, "
      ++ "runs code quality checks and UI verification, iterates with AI to fix issues, "
      ++ "and cleans up on completion. Uses all 3 step types across all 4 phases.")
    [ make_check "verify-eslint" "TypeScript lint (ESLint)" "lint" "eslint"
        "npx eslint ." (WS ++ "\\qontinui-web\\frontend")
    , make_check "verify-tsc" "TypeScript type check" "typecheck" "tsc"
        "npx tsc --noEmit" (WS ++ "\\qontinui-web\\frontend")
    , make_check "verify-prettier" "Prettier format check" "format" "prettier"
        "npx prettier --check ." (WS ++ "\\qontinui-web\\frontend")
    , make_command "verify-ui-elements" "Verify UI renders correctly" "verification"
        "curl -sf http://localhost:9876/ui-bridge/sdk/snapshot | grep \"elements\""
        none
        [("fail_on_error", Val.bool true),
         ("retry", Val.obj [("count", Val.int 3), ("delay_ms", Val.int 3000)])]
    , make_prompt "verify-ai-review" "AI review of implementation" "verification"
        ("Review the verification results. Check if the feature is correctly implemented "
          ++ "by examining the UI state via SDK tools and the code quality check results. "
          ++ "If there are issues, describe exactly what needs to be fixed.") ]
    ["ground_truth", "command", "ui_bridge", "prompt", "multi-phase", "reference"]
    [ make_command "setup-sdk-connect" "Connect UI Bridge SDK" "setup"
        ("curl -sf -X POST http://localhost:9876/ui-bridge/sdk/connect "
          ++ "-H \"Content-Type: application/json\" "
          ++ "-d \"\x7b\\\"url\\\": \\\"http://localhost:3001\\\"\x7d\"")
        none [("fail_on_error", Val.bool true)]
    , make_prompt "setup-plan" "Plan the implementation" "setup"
        ("Read the task description and plan the implementation approach. "
          ++ "Identify which files need to be modified, what components are involved, "
          ++ "and what the acceptance criteria are. Read the relevant source files.") ]
    [ make_agentic
        ("Based on the verification results, implement or fix the feature. Use the Edit tool "
          ++ "to modify source files. Use sdk_snapshot and sdk_elements to inspect the current UI state. "
          ++ "Fix any lint, type, or formatting errors. Ensure the feature matches the requirements.") ]
    [ make_command "completion-format" "Auto-format code" "completion"
        "npx prettier --write ." (some (WS ++ "\\qontinui-web\\frontend"))
        [("fail_on_error", Val.bool false)]
    , make_prompt "completion-summary" "Summarize changes" "completion"
        ("Write a concise summary of all changes made during this workflow. "
          ++ "Include: files modified, features implemented, issues fixed, "
          ++ "and any remaining considerations.") ]
    8

/-- GT: qontinui-runner Rust tests and checks. -/
def wf_rust_tests : Workflow :=
  add_gt "GT: qontinui-runner Rust tests and checks"
    ("Run the qontinui-runner Rust test suite and code quality checks at "
      ++ WS ++ "\\qontinui-runner\\src-tauri. "
      ++ "Runs cargo test for unit tests along with cargo fmt and clippy. Fixes any failures.")
    [ make_test "verify-cargo-test" "Run cargo test" "repository"
        "cargo test -- --nocapture" (some (WS ++ "\\qontinui-runner\\src-tauri")) []
    , make_check "verify-cargo-fmt" "Rust format (cargo fmt)" "format" "cargo"
        "cargo fmt -- --check" (WS ++ "\\qontinui-runner\\src-tauri")
    , make_check "verify-cargo-clippy" "Rust lint (cargo clippy)" "lint" "cargo"
        "cargo clippy -- -D warnings" (WS ++ "\\qontinui-runner\\src-tauri") ]
    ["ground_truth", "command", "test", "rust", "reference"]
    []
    [ make_agentic
        ("Fix any test failures or code quality issues in the Rust codebase. "
          ++ "For test failures, read the test output and fix the implementation. "
          ++ "For clippy warnings, apply the suggested fixes. "
          ++ "For formatting issues, the agentic phase should fix the source formatting.") ]
    [] 5

/-- GT: Dev environment health check. -/
def wf_health : Workflow :=
  add_gt "GT: Dev environment health check"
    ("Verify that all qontinui development services are running and healthy. "
      ++ "Checks the web backend API, web frontend, runner API, and supervisor.")
    [ make_command "verify-backend" "Check backend health" "verification"
        "curl -sf http://localhost:8000/health" none [("fail_on_error", Val.bool true)]
    , make_command "verify-frontend" "Check frontend health" "verification"
        "curl -sf http://localhost:3001" none [("fail_on_error", Val.bool true)]
    , make_command "verify-runner" "Check runner API health" "verification"
        "curl -sf http://localhost:9876/health" none [("fail_on_error", Val.bool true)]
    , make_command "verify-supervisor" "Check supervisor health" "verification"
        "curl -sf http://localhost:9875/health" none [("fail_on_error", Val.bool true)] ]
    ["ground_truth", "command", "health", "reference"]
    []
    [ make_agentic
        ("Some services failed their health check. Diagnose which services are down "
          ++ "by reading the dev logs in .dev-logs/. Try restarting failed services using "
          ++ "the dev-start.ps1 script (e.g., dev-start.ps1 -Backend for backend). "
          ++ "Wait for the service to start before the next verification cycle.") ]
    [] 3

/-- GT_WORKFLOWS of seed_gt_workflows_to_runner.py, in seeding order. -/
def GT_WORKFLOWS : List Workflow :=
  [wf_web, wf_backend, wf_frontend, wf_core, wf_runner, wf_supervisor,
   wf_multistate, wf_full_stack, wf_ui_verification, wf_backend_tests,
   wf_feature_dev, wf_rust_tests, wf_health]

end SeedGt

namespace SeedUiBridge

/-! Embedding of src/scripts/seed_ui_bridge_ground_truth.py. -/

/-- `api_post`: the `except` branch returns `{"error": str(e)}`. -/
def api_post (outcome : Except String Val) : Val :=
  match outcome with
  | Except.ok v => v
  | Except.error e => Val.obj [("error", Val.str e)]

/-- `api_get`: same try/except shape as `api_post`. -/
def api_get (outcome : Except String Val) : Val :=
  match outcome with
  | Except.ok v => v
  | Except.error e => Val.obj [("error", Val.str e)]

/-- `api_delete`: same try/except shape as `api_post`. -/
def api_delete (outcome : Except String Val) : Val :=
  match outcome with
  | Except.ok v => v
  | Except.error e => Val.obj [("error", Val.str e)]

/-- `api_put`: the `except` branch returns `{"ok": False, "message": str(e)}`. -/
def api_put (outcome : Except String Val) : Val :=
  match outcome with
  | Except.ok v => v
  | Except.error e => Val.obj [("ok", Val.bool false), ("message", Val.str e)]

/-- `navigate_step`: a page navigation step using the ui_bridge step type. -/
def navigate_step (step_id name url phase : String) : Step :=
  [("id", Val.str step_id),
   ("type", Val.str "ui_bridge"),
   ("name", Val.str name),
   ("phase", Val.str phase),
   ("ui_bridge_action", Val.str "navigate"),
   ("ui_bridge_url", Val.str url)]

/-- `ai_assert_step`: an AI assertion step; `ui_bridge_expected` is inserted
when `expected` is given, and the retry fields when `retry_count > 0`. -/
def ai_assert_step (step_id name target assert_type : String)
    (expected : Option String) (phase : String)
    (retry_count retry_delay_ms : Nat) : Step :=
  [("id", Val.str step_id),
   ("type", Val.str "ui_bridge"),
   ("name", Val.str name),
   ("phase", Val.str phase),
   ("ui_bridge_action", Val.str "assert"),
   ("ui_bridge_target", Val.str target),
   ("ui_bridge_assert_type", Val.str assert_type)]
  ++ (match expected with
      | some e => [("ui_bridge_expected", Val.str e)]
      | none => [])
  ++ (if retry_count > 0 then
        [("retry_count", Val.int retry_count),
         ("retry_delay_ms", Val.int retry_delay_ms)]
      else [])

/-- `ai_execute_step`: an AI execute step; retry fields when
`retry_count > 0`. -/
def ai_execute_step (step_id name instruction phase : String)
    (retry_count retry_delay_ms : Nat) : Step :=
  [("id", Val.str step_id),
   ("type", Val.str "ui_bridge"),
   ("name", Val.str name),
   ("phase", Val.str phase),
   ("ui_bridge_action", Val.str "execute"),
   ("ui_bridge_instruction", Val.str instruction)]
  ++ (if retry_count > 0 then
        [("retry_count", Val.int retry_count),
         ("retry_delay_ms", Val.int retry_delay_ms)]
      else [])

/-- `make_agentic`: the standard agentic fix step of this script. -/
def make_agentic : Step :=
  [("id", Val.str "step-fix"),
   ("type", Val.str "prompt"),
   ("name", Val.str "Fix UI test failures"),
   ("phase", Val.str "agentic"),
   ("content", Val.str
     ("Fix any UI Bridge test failures found in the verification phase. "
       ++ "Check that the web frontend is running, a browser tab is connected, "
       ++ "and that element IDs match the current UI. If navigation timing is "
       ++ "an issue, the page may need more time to load after navigation."))]

/-- `add_gt`: the workflow dict appended to GT_WORKFLOWS (the eval-prompt
record built alongside it carries the same workflow as JSON). -/
def add_gt (name description : String) (setup_steps : List Step)
    (verification_steps : List Step) : Workflow :=
  { name := name
  , description := description
  , category := "ground_truth"
  , tags := ["ground_truth", "ui_bridge", "test"]
  , setup_steps := setup_steps
  , verification_steps := verification_steps
  , agentic_steps := [make_agentic]
  , completion_steps := []
  , max_iterations := 3 }

/-- GT: UI Bridge - Navigate to Settings. -/
def wf_nav_settings : Workflow :=
  add_gt "GT: UI Bridge - Navigate to Settings"
    ("Navigate to the Settings page and verify it loaded with the Account "
      ++ "section showing connection status, device info, and runner name input.")
    [ navigate_step "step-nav-settings" "Navigate to Settings page"
        "http://localhost:3001/settings" "setup" ]
    [ ai_assert_step "step-verify-settings-heading"
        "Verify Settings page heading is visible" "Settings"
        "visible" none "verification" 5 3000
    , ai_assert_step "step-verify-account-section"
        "Verify Account section heading is visible" "Account"
        "visible" none "verification" 5 3000
    , ai_assert_step "step-verify-runner-name-input"
        "Verify Runner Name input field exists" "Runner Name"
        "visible" none "verification" 5 3000 ]

/-- GT: UI Bridge - Navigate to Discoveries. -/
def wf_nav_discoveries : Workflow :=
  add_gt "GT: UI Bridge - Navigate to Discoveries"
    ("Navigate to the Discoveries page and verify it loaded with the "
      ++ "Pending/Accepted/Rejected tabs visible.")
    [ navigate_step "step-nav-discoveries" "Navigate to Discoveries page"
        "http://localhost:3001/discoveries" "setup" ]
    [ ai_assert_step "step-verify-discoveries-heading"
        "Verify Discoveries page heading is visible" "Discoveries"
        "visible" none "verification" 5 3000
    , ai_assert_step "step-verify-pending-tab"
        "Verify Pending tab is visible" "Pending"
        "visible" none "verification" 5 3000
    , ai_assert_step "step-verify-accepted-tab"
        "Verify Accepted tab is visible" "Accepted"
        "visible" none "verification" 5 3000
    , ai_assert_step "step-verify-rejected-tab"
        "Verify Rejected tab is visible" "Rejected"
        "visible" none "verification" 5 3000 ]

/-- GT: UI Bridge - Navigate to Agentic Settings. -/
def wf_nav_agentic_settings : Workflow :=
  add_gt "GT: UI Bridge - Navigate to Agentic Settings"
    ("Navigate to the Agentic Settings page and verify it loaded with the "
      ++ "Advanced AI configuration form including memory compression settings.")
    [ navigate_step "step-nav-agentic-settings" "Navigate to Agentic Settings page"
        "http://localhost:3001/settings/agentic" "setup" ]
    [ ai_assert_step "step-verify-agentic-heading"
        "Verify Advanced AI heading is visible" "Advanced AI"
        "visible" none "verification" 5 3000
    , ai_assert_step "step-verify-threshold-tokens"
        "Verify Threshold Tokens field is visible" "Threshold Tokens"
        "visible" none "verification" 5 3000
    , ai_assert_step "step-verify-target-tokens"
        "Verify Target Tokens field is visible" "Target Tokens"
        "visible" none "verification" 5 3000 ]

/-- GT: UI Bridge - Navigate to Automation Builder. -/
def wf_nav_builder : Workflow :=
  add_gt "GT: UI Bridge - Navigate to Automation Builder"
    ("Navigate to the Automation Builder page and verify it loads. Without "
      ++ "a project selected, it shows a \x27No project selected\x27 message with a "
      ++ "link back to the dashboard.")
    [ navigate_step "step-nav-builder" "Navigate to Automation Builder"
        "http://localhost:3001/automation-builder" "setup" ]
    [ ai_assert_step "step-verify-no-project"
        "Verify \x27No project selected\x27 message is visible" "No project selected"
        "visible" none "verification" 5 3000
    , ai_assert_step "step-verify-dashboard-link"
        "Verify \x27Go to Dashboard\x27 link is visible" "Go to Dashboard"
        "visible" none "verification" 5 3000 ]

/-- GT: UI Bridge - Switch Discoveries tabs. -/
def wf_discoveries_tabs : Workflow :=
  add_gt "GT: UI Bridge - Switch Discoveries tabs"
    ("Navigate to Discoveries, verify tabs are present, then click the "
      ++ "Accepted tab to test tab switching.")
    [ navigate_step "step-nav-discoveries" "Navigate to Discoveries page"
        "http://localhost:3001/discoveries" "setup" ]
    [ ai_assert_step "step-verify-tabs-present"
        "Verify tabs are present before switching" "Pending"
        "visible" none "verification" 5 3000
    , ai_execute_step "step-click-accepted-tab"
        "Click the Accepted tab" "click Accepted"
        "verification" 3 2000
    , ai_assert_step "step-verify-accepted-active"
        "Verify Discoveries page still visible after tab click" "Discoveries"
        "visible" none "verification" 5 3000 ]

/-- GT: UI Bridge - Verify Settings form fields. -/
def wf_settings_runner_name : Workflow :=
  add_gt "GT: UI Bridge - Verify Settings form fields"
    ("Navigate to Settings and verify the runner name input field is present "
      ++ "and accessible.")
    [ navigate_step "step-nav-settings" "Navigate to Settings page"
        "http://localhost:3001/settings" "setup" ]
    [ ai_assert_step "step-verify-settings-loaded"
        "Verify Settings page heading is visible" "Settings"
        "visible" none "verification" 5 3000
    , ai_assert_step "step-verify-runner-name"
        "Verify Runner Name input field exists" "Runner Name"
        "visible" none "verification" 5 3000
    , ai_assert_step "step-verify-runner-name-enabled"
        "Verify Runner Name input is enabled" "Runner Name"
        "enabled" none "verification" 5 3000 ]

/-- GT: UI Bridge - Verify Agentic Settings configuration. -/
def wf_agentic_config_fields : Workflow :=
  add_gt "GT: UI Bridge - Verify Agentic Settings configuration"
    ("Navigate to the Agentic Settings page and verify all memory compression "
      ++ "configuration fields are present: Threshold Tokens, Target Tokens, "
      ++ "Keep Recent Items, and Summarize Batch Size.")
    [ navigate_step "step-nav-agentic" "Navigate to Agentic Settings"
        "http://localhost:3001/settings/agentic" "setup" ]
    [ ai_assert_step "step-verify-heading"
        "Verify Advanced AI heading is visible" "Advanced AI"
        "visible" none "verification" 5 3000
    , ai_assert_step "step-verify-threshold-tokens"
        "Verify Threshold Tokens field is visible" "Threshold Tokens"
        "visible" none "verification" 5 3000
    , ai_assert_step "step-verify-target-tokens"
        "Verify Target Tokens field is visible" "Target Tokens"
        "visible" none "verification" 5 3000
    , ai_assert_step "step-verify-keep-recent"
        "Verify Keep Recent Items field is visible" "Keep Recent Items"
        "visible" none "verification" 5 3000
    , ai_assert_step "step-verify-batch-size"
        "Verify Summarize Batch Size field is visible" "Summarize Batch Size"
        "visible" none "verification" 5 3000 ]

/-- GT_WORKFLOWS of seed_ui_bridge_ground_truth.py, in seeding order. -/
def GT_WORKFLOWS : List Workflow :=
  [wf_nav_settings, wf_nav_discoveries, wf_nav_agentic_settings,
   wf_nav_builder, wf_discoveries_tabs, wf_settings_runner_name,
   wf_agentic_config_fields]

end SeedUiBridge

namespace SeedCheck

/-! Embedding of src/scripts/seed_check_ground_truth.py. -/

/-- `api_post`: the `except` branch returns
`{"ok": False, "message": str(e)}`. -/
def api_post (outcome : Except String Val) : Val :=
  match outcome with
  | Except.ok v => v
  | Except.error e => Val.obj [("ok", Val.bool false), ("message", Val.str e)]

/-- `api_put`: same try/except shape as `api_post`. -/
def api_put (outcome : Except String Val) : Val :=
  match outcome with
  | Except.ok v => v
  | Except.error e => Val.obj [("ok", Val.bool false), ("message", Val.str e)]

/-- `api_delete`: the `except` branch returns `{"ok": False}` — no
`message` key. -/
def api_delete (outcome : Except String Val) : Val :=
  match outcome with
  | Except.ok v => v
  | Except.error _ => Val.obj [("ok", Val.bool false)]

/-- The repeated check-step dict literal shape of the `add(...)` call sites:
every ground-truth check is a dict with exactly these eight keys, with
`type` `"check"` and `phase` `"verification"`. -/
def checkLit (check_id name check_type tool command working_dir : String) :
    Step :=
  [("id", Val.str check_id),
   ("type", Val.str "check"),
   ("name", Val.str name),
   ("phase", Val.str "verification"),
   ("check_type", Val.str check_type),
   ("tool", Val.str tool),
   ("command", Val.str command),
   ("working_directory", Val.str working_dir)]

/-- The terminal gate literal of `add`: `required_steps` is the list
comprehension `[c["id"] for c in ground_truth_checks]`. -/
def gate_step (ground_truth_checks : List Step) : Step :=
  [("id", Val.str "step-gate"),
   ("type", Val.str "gate"),
   ("name", Val.str "All checks pass"),
   ("phase", Val.str "verification"),
   ("required_steps",
    Val.vlist (ground_truth_checks.map (fun c => pyGet c "id")))]

/-- The `gt_workflow` dict built inside `add`: the checks followed by the
gate, a single fixed agentic prompt step, and no setup/completion steps. -/
def gt_workflow (prompt_id prompt_text : String)
    (ground_truth_checks : List Step) : Workflow :=
  { name := "Check Group: " ++ prompt_id
  , description := "Ground truth checks for: " ++ prompt_text
  , category := "code_quality"
  , tags := ["check", "ground_truth"]
  , setup_steps := []
  , verification_steps := ground_truth_checks ++ [gate_step ground_truth_checks]
  , agentic_steps :=
      [[("id", Val.str "step-fix"),
        ("type", Val.str "prompt"),
        ("name", Val.str "Fix issues"),
        ("phase", Val.str "agentic"),
        ("content", Val.str "Fix any check failures found in the verification phase.")]]
  , completion_steps := []
  , max_iterations := 5 }

/-- gt-checks-qontinui-web. -/
def wf_qontinui_web : Workflow :=
  gt_workflow "gt-checks-qontinui-web"
    ("Run all code quality checks on the qontinui-web repository at "
      ++ WS ++ "\\qontinui-web")
    [ checkLit "check-ruff-lint" "Python lint (ruff)" "lint" "ruff"
        "ruff check ." (WS ++ "\\qontinui-web\\backend")
    , checkLit "check-ruff-format" "Python format (ruff)" "format" "ruff"
        "ruff format --check ." (WS ++ "\\qontinui-web\\backend")
    , checkLit "check-mypy" "Python type check (mypy)" "typecheck" "mypy"
        "mypy ." (WS ++ "\\qontinui-web\\backend")
    , checkLit "check-eslint" "TypeScript lint (ESLint)" "lint" "eslint"
        "npx eslint ." (WS ++ "\\qontinui-web\\frontend")
    , checkLit "check-tsc" "TypeScript type check" "typecheck" "tsc"
        "npx tsc --noEmit" (WS ++ "\\qontinui-web\\frontend")
    , checkLit "check-prettier" "Prettier format check" "format" "prettier"
        "npx prettier --check ." (WS ++ "\\qontinui-web\\frontend") ]

/-- gt-checks-web-backend. -/
def wf_web_backend : Workflow :=
  gt_workflow "gt-checks-web-backend"
    ("Run code quality checks on the qontinui-web backend (Python) at "
      ++ WS ++ "\\qontinui-web\\backend")
    [ checkLit "check-ruff-lint" "Python lint (ruff)" "lint" "ruff"
        "ruff check ." (WS ++ "\\qontinui-web\\backend")
    , checkLit "check-ruff-format" "Python format (ruff)" "format" "ruff"
        "ruff format --check ." (WS ++ "\\qontinui-web\\backend")
    , checkLit "check-mypy" "Python type check (mypy)" "typecheck" "mypy"
        "mypy ." (WS ++ "\\qontinui-web\\backend") ]

/-- gt-checks-web-frontend. -/
def wf_web_frontend : Workflow :=
  gt_workflow "gt-checks-web-frontend"
    ("Run code quality checks on the qontinui-web frontend (TypeScript/React) at "
      ++ WS ++ "\\qontinui-web\\frontend")
    [ checkLit "check-eslint" "TypeScript lint (ESLint)" "lint" "eslint"
        "npx eslint ." (WS ++ "\\qontinui-web\\frontend")
    , checkLit "check-tsc" "TypeScript type check" "typecheck" "tsc"
        "npx tsc --noEmit" (WS ++ "\\qontinui-web\\frontend")
    , checkLit "check-prettier" "Prettier format check" "format" "prettier"
        "npx prettier --check ." (WS ++ "\\qontinui-web\\frontend") ]

/-- gt-checks-qontinui-core. -/
def wf_qontinui_core : Workflow :=
  gt_workflow "gt-checks-qontinui-core"
    ("Run code quality checks on the qontinui core Python library at "
      ++ WS ++ "\\qontinui")
    [ checkLit "check-black" "Python format (black)" "format" "black"
        "black --check --line-length=100 ." (WS ++ "\\qontinui")
    , checkLit "check-ruff" "Python lint (ruff)" "lint" "ruff"
        "ruff check ." (WS ++ "\\qontinui")
    , checkLit "check-mypy" "Python type check (mypy)" "typecheck" "mypy"
        "mypy -p qontinui" (WS ++ "\\qontinui") ]

/-- gt-checks-runner. -/
def wf_runner : Workflow :=
  gt_workflow "gt-checks-runner"
    ("Run all code quality checks on the qontinui-runner repository at "
      ++ WS ++ "\\qontinui-runner")
    [ checkLit "check-cargo-fmt" "Rust format (cargo fmt)" "format" "cargo"
        "cargo fmt -- --check" (WS ++ "\\qontinui-runner\\src-tauri")
    , checkLit "check-cargo-clippy" "Rust lint (cargo clippy)" "lint" "cargo"
        "cargo clippy -- -D warnings" (WS ++ "\\qontinui-runner\\src-tauri")
    , checkLit "check-eslint" "TypeScript lint (ESLint)" "lint" "eslint"
        "npx eslint ." (WS ++ "\\qontinui-runner")
    , checkLit "check-tsc" "TypeScript type check" "typecheck" "tsc"
        "npx tsc --noEmit" (WS ++ "\\qontinui-runner")
    , checkLit "check-prettier" "Prettier format check" "format" "prettier"
        "npx prettier --check \x27src/**/*.\x7bts,tsx\x7d\x27" (WS ++ "\\qontinui-runner") ]

/-- gt-checks-supervisor. -/
def wf_supervisor : Workflow :=
  gt_workflow "gt-checks-supervisor"
    ("Run code quality checks on the qontinui-supervisor (Rust) at "
      ++ WS ++ "\\qontinui-supervisor")
    [ checkLit "check-cargo-fmt" "Rust format (cargo fmt)" "format" "cargo"
        "cargo fmt -- --check" (WS ++ "\\qontinui-supervisor")
    , checkLit "check-cargo-clippy" "Rust lint (cargo clippy)" "lint" "cargo"
        "cargo clippy -- -D warnings" (WS ++ "\\qontinui-supervisor") ]

/-- gt-checks-multistate. -/
def wf_multistate : Workflow :=
  gt_workflow "gt-checks-multistate"
    ("Run code quality checks on the multistate Python library at "
      ++ WS ++ "\\multistate")
    [ checkLit "check-black" "Python format (black)" "format" "black"
        "black --check --line-length=100 ." (WS ++ "\\multistate")
    , checkLit "check-ruff" "Python lint (ruff)" "lint" "ruff"
        "ruff check ." (WS ++ "\\multistate")
    , checkLit "check-mypy" "Python type check (mypy)" "typecheck" "mypy"
        "mypy ." (WS ++ "\\multistate") ]

/-- gt-checks-full-stack. -/
def wf_full_stack : Workflow :=
  gt_workflow "gt-checks-full-stack"
    ("Run code quality checks across all qontinui repositories (web backend at "
      ++ WS ++ "\\qontinui-web\\backend, web frontend at "
      ++ WS ++ "\\qontinui-web\\frontend, runner at "
      ++ WS ++ "\\qontinui-runner, supervisor at "
      ++ WS ++ "\\qontinui-supervisor)")
    [ checkLit "check-web-backend-ruff-lint" "Web backend: ruff lint" "lint" "ruff"
        "ruff check ." (WS ++ "\\qontinui-web\\backend")
    , checkLit "check-web-backend-ruff-format" "Web backend: ruff format" "format" "ruff"
        "ruff format --check ." (WS ++ "\\qontinui-web\\backend")
    , checkLit "check-web-backend-mypy" "Web backend: mypy" "typecheck" "mypy"
        "mypy ." (WS ++ "\\qontinui-web\\backend")
    , checkLit "check-web-frontend-eslint" "Web frontend: ESLint" "lint" "eslint"
        "npx eslint ." (WS ++ "\\qontinui-web\\frontend")
    , checkLit "check-web-frontend-tsc" "Web frontend: tsc" "typecheck" "tsc"
        "npx tsc --noEmit" (WS ++ "\\qontinui-web\\frontend")
    , checkLit "check-web-frontend-prettier" "Web frontend: Prettier" "format" "prettier"
        "npx prettier --check ." (WS ++ "\\qontinui-web\\frontend")
    , checkLit "check-runner-cargo-fmt" "Runner: cargo fmt" "format" "cargo"
        "cargo fmt -- --check" (WS ++ "\\qontinui-runner\\src-tauri")
    , checkLit "check-runner-clippy" "Runner: cargo clippy" "lint" "cargo"
        "cargo clippy -- -D warnings" (WS ++ "\\qontinui-runner\\src-tauri")
    , checkLit "check-runner-eslint" "Runner: ESLint" "lint" "eslint"
        "npx eslint ." (WS ++ "\\qontinui-runner")
    , checkLit "check-runner-tsc" "Runner: tsc" "typecheck" "tsc"
        "npx tsc --noEmit" (WS ++ "\\qontinui-runner")
    , checkLit "check-runner-prettier" "Runner: Prettier" "format" "prettier"
        "npx prettier --check \x27src/**/*.\x7bts,tsx\x7d\x27" (WS ++ "\\qontinui-runner")
    , checkLit "check-supervisor-cargo-fmt" "Supervisor: cargo fmt" "format" "cargo"
        "cargo fmt -- --check" (WS ++ "\\qontinui-supervisor")
    , checkLit "check-supervisor-clippy" "Supervisor: cargo clippy" "lint" "cargo"
        "cargo clippy -- -D warnings" (WS ++ "\\qontinui-supervisor") ]

/-- The workflows of the eight `add(...)` calls, in script order (each is the
`ground_truth_json` payload of one PROMPTS entry). -/
def CHECK_WORKFLOWS : List Workflow :=
  [wf_qontinui_web, wf_web_backend, wf_web_frontend, wf_qontinui_core,
   wf_runner, wf_supervisor, wf_multistate, wf_full_stack]

end SeedCheck

/-- Every workflow any of the three seeding scripts constructs. -/
def allSeededWorkflows : List Workflow :=
  SeedGt.GT_WORKFLOWS ++ SeedUiBridge.GT_WORKFLOWS ++ SeedCheck.CHECK_WORKFLOWS

namespace UpdateRules

/-! Embedding of src/scripts/update_generation_rules_3types.py
(its HTTP helpers; the UPDATES list is rule text, not steps). -/

/-- `api_put`: the `except` branch returns `{"error": str(e)}`. -/
def api_put (outcome : Except String Val) : Val :=
  match outcome with
  | Except.ok v => v
  | Except.error e => Val.obj [("error", Val.str e)]

/-- `api_get`: same try/except shape as `api_put`. -/
def api_get (outcome : Except String Val) : Val :=
  match outcome with
  | Except.ok v => v
  | Except.error e => Val.obj [("error", Val.str e)]

/-- `api_delete`: same try/except shape as `api_put`. -/
def api_delete (outcome : Except String Val) : Val :=
  match outcome with
  | Except.ok v => v
  | Except.error e => Val.obj [("error", Val.str e)]

end UpdateRules

namespace SeedCheckRules

/-! Embedding of src/scripts/seed_check_generation_rules.py
(its HTTP helpers; the RULES list is rule text, not steps). -/

/-- `api_get`: the `except` branch returns `{"error": str(e)}`. -/
def api_get (outcome : Except String Val) : Val :=
  match outcome with
  | Except.ok v => v
  | Except.error e => Val.obj [("error", Val.str e)]

/-- `api_post`: same try/except shape as `api_get`. -/
def api_post (outcome : Except String Val) : Val :=
  match outcome with
  | Except.ok v => v
  | Except.error e => Val.obj [("error", Val.str e)]

end SeedCheckRules

/-! The gate evaluator (spec.md §4.3). -/

/-- Outcome of evaluating a gate: pass, or fail carrying the offending
step ids. -/
inductive GateOutcome : Type where
  | pass : GateOutcome
  | fail : List String → GateOutcome
deriving DecidableEq

/-- Whether the execution record `results` records id `i` with a result of
success. -/
def idSucceeded (results : List (String × Bool)) (i : String) : Bool :=
  results.lookup i == some true

/-- Modelled from the spec: the gate evaluator `evaluate(gate, results)` is
specified in spec.md §4.3 but not implemented in this repository.  Per the
spec, a gate passes iff every id in `required_steps` has a result of success
in the execution record; any id absent from the record, or present with
failure, causes Fail carrying the offending ids. -/
def evaluate (required_steps : List String)
    (results : List (String × Bool)) : GateOutcome :=
  let unmet := required_steps.filter (fun i => !idSucceeded results i)
  if unmet.isEmpty then GateOutcome.pass else GateOutcome.fail unmet

namespace AnalyzeEval

/-! Embedding of src/scripts/analyze_eval.py (the averaging logic the claim
is about).  Scores are modelled as exact rationals; Python float division is
exact division here, and a division whose denominator is zero (Python
ZeroDivisionError) is modelled as `none`. -/

/-- One eval result record: the prompt id, the overall score, and the six
dimension scores; `none` models a JSON null. -/
structure EvalRec : Type where
  test_prompt_id : String
  overall_score : Option Rat
  structural_correctness : Option Rat
  command_accuracy : Option Rat
  phase_flow_logic : Option Rat
  step_completeness : Option Rat
  prompt_quality : Option Rat
  determinism : Option Rat
deriving DecidableEq

/-- The `dims` list the script averages over. -/
def dims : List String :=
  ["structural_correctness", "command_accuracy", "phase_flow_logic",
   "step_completeness", "prompt_quality", "determinism"]

/-- `r[d]` for a dimension name `d` (the script only subscripts the six
names in `dims`). -/
def dimVal (r : EvalRec) (d : String) : Option Rat :=
  if d = "structural_correctness" then r.structural_correctness
  else if d = "command_accuracy" then r.command_accuracy
  else if d = "phase_flow_logic" then r.phase_flow_logic
  else if d = "step_completeness" then r.step_completeness
  else if d = "prompt_quality" then r.prompt_quality
  else if d = "determinism" then r.determinism
  else none

/-- Division guarded against a zero denominator: `none` models Python's
ZeroDivisionError. -/
def pyDiv (a : Rat) (n : Nat) : Option Rat :=
  if n = 0 then none else some (a / n)

/-- `scored = [r for r in results if r['overall_score'] is not None]`. -/
def scoredOf (results : List EvalRec) : List EvalRec :=
  results.filter (fun r => r.overall_score.isSome)

/-- `vals = [r[d] for r in scored if r[d] is not None]`. -/
def dimVals (scored : List EvalRec) (d : String) : List Rat :=
  scored.filterMap (fun r => dimVal r d)

/-- `avg = sum(vals)/len(vals) if vals else 0`. -/
def dimAvg (scored : List EvalRec) (d : String) : Option Rat :=
  let vals := dimVals scored d
  if vals.isEmpty then some 0 else pyDiv vals.sum vals.length

/-- One character list is an initial segment of another. -/
def charsPre : List Char → List Char → Bool
  | [], _ => true
  | _ :: _, [] => false
  | a :: as, b :: bs => a == b && charsPre as bs

/-- Python `pid.startswith(pre)`, as a character-list prefix test. -/
def startswithB (pid pre : String) : Bool :=
  charsPre pre.data pid.data

/-- The category assigned to a prompt id by the startswith chain. -/
def catOf (pid : String) : String :=
  if startswithB pid "gt-" then "curated(gt)"
  else if startswithB pid "uib-" then "ui_bridge"
  else if startswithB pid "api-" then "api"
  else if startswithB pid "check-" || startswithB pid "checkgroup-" then "checks"
  else if startswithB pid "shell-" then "shell"
  else if startswithB pid "test-" then "tests"
  else if startswithB pid "script-" then "script"
  else if startswithB pid "gui-" then "gui"
  else if startswithB pid "spec-" then "spec"
  else if startswithB pid "gate-" then "gate"
  else if startswithB pid "logwatch-" then "logwatch"
  else if startswithB pid "screenshot-" then "screenshot"
  else if startswithB pid "prompt-" then "ai_prompt"
  else if startswithB pid "mcp-" then "mcp"
  else if startswithB pid "awas-" then "awas"
  else if startswithB pid "macro-" then "macro"
  else if startswithB pid "state-" then "state"
  else if startswithB pid "wfref-" then "wfref"
  else if startswithB pid "errresolved-" then "errresolved"
  else if startswithB pid "artifact-" then "artifact"
  else if startswithB pid "lint-" || startswithB pid "typecheck-"
       || startswithB pid "full-stack" then "checks"
  else if startswithB pid "web-page" || startswithB pid "e2e-" then "e2e"
  else if startswithB pid "ai-session" || startswithB pid "playwright-" then "other"
  else "other"

/-- `cats.setdefault(cat, []).append(s)`: append to the category's list,
creating the key (with the appended score) when absent; insertion order of
keys is preserved. -/
def appendScore (cats : List (String × List Rat)) (cat : String) (s : Rat) :
    List (String × List Rat) :=
  match cats with
  | [] => [(cat, [s])]
  | (k, v) :: rest =>
      if k = cat then (k, v ++ [s]) :: rest
      else (k, v) :: appendScore rest cat s

/-- The `cats` dict after the loop over `scored` (each record's
`overall_score` is non-None since `scored` is filtered on it; the `getD`
default is never reached there). -/
def buildCats (scored : List EvalRec) : List (String × List Rat) :=
  scored.foldl
    (fun cats r => appendScore cats (catOf r.test_prompt_id)
      (r.overall_score.getD 0)) []

/-- `avg = sum(scores)/len(scores)` for one category. -/
def catAvg (scores : List Rat) : Option Rat :=
  pyDiv scores.sum scores.length

/-- A sample record used to instantiate the averaging theorems. -/
def sampleRec : EvalRec :=
  { test_prompt_id := "gt-sample"
  , overall_score := some 4
  , structural_correctness := some 5
  , command_accuracy := none
  , phase_flow_logic := none
  , step_completeness := none
  , prompt_quality := none
  , determinism := some 3 }

end AnalyzeEval

/-! Predicates used to state the claims. -/

/-- Look up a key in an object value. -/
def objGet (v : Val) (k : String) : Option Val :=
  match v with
  | Val.obj kvs => (List.find? (fun p => p.1 == k) kvs).map (fun p => p.2)
  | _ => none

/-- The value is a dict describing an error: it carries an `error` key, or
an `ok` key holding `False`. -/
def isErrDict (v : Val) : Bool :=
  match v with
  | Val.obj _ =>
      (objGet v "error").isSome
      || (match objGet v "ok" with
          | some (Val.bool b) => !b
          | _ => false)
  | _ => false

/-- The list ends with a gate and contains no other gate. -/
def endsWithOneGate (ss : List Step) : Bool :=
  match ss.reverse with
  | [] => false
  | g :: rest => isGateB g && rest.all (fun s => !isGateB s)

/-- Per-action required fields of a ui_bridge step, under the
`ui_bridge_`-prefixed key names the script uses. -/
def uiFieldsOk (s : Step) : Bool :=
  match getStr s "ui_bridge_action" with
  | some "navigate" => (getVal s "ui_bridge_url").isSome
  | some "execute" => (getVal s "ui_bridge_instruction").isSome
  | some "assert" =>
      (getVal s "ui_bridge_target").isSome
      && (getVal s "ui_bridge_assert_type").isSome
      && (if getStr s "ui_bridge_assert_type" == some "containsText"
             || getStr s "ui_bridge_assert_type" == some "hasText"
          then (getVal s "ui_bridge_expected").isSome
          else true)
  | _ => true

/-- Every step in the list whose `phase` key matches the given phase. -/
def phaseListOk (phase : String) (ss : List Step) : Bool :=
  ss.all (fun s => getStr s "phase" == some phase)

/-- No duplicates in a list of strings. -/
def nodupB : List String → Bool
  | [] => true
  | x :: xs => !xs.contains x && nodupB xs

/-- The ids of all steps of a workflow, in phase-list order. -/
def stepIds (w : Workflow) : List String :=
  w.allSteps.map (fun s => (getStr s "id").getD "")

/-! Claim theorems. -/

/-- C1: For every list of ground-truth check steps passed to `add` in
seed_check_ground_truth.py, the constructed workflow's `verification_steps`
equals those checks followed by exactly one gate step as terminal element,
and that gate's `required_steps` equals exactly the list of ids of the
preceding check steps, in order. -/
theorem seedCheck_add_gate_structure (prompt_id prompt_text : String)
    (checks : List Step) :
    (SeedCheck.gt_workflow prompt_id prompt_text checks).verification_steps
      = checks ++ [SeedCheck.gate_step checks]
    ∧ isGateB (SeedCheck.gate_step checks) = true
    ∧ getVal (SeedCheck.gate_step checks) "required_steps"
      = some (Val.vlist (checks.map (fun c => pyGet c "id"))) :=
  ⟨rfl, rfl, rfl⟩

/-- C6: In every workflow constructed by the seeding scripts, every element
of `agentic_steps` has type `prompt`. -/
theorem seeded_agentic_only_prompts :
    (allSeededWorkflows.all (fun w =>
      w.agentic_steps.all (fun s => getStr s "type" == some "prompt"))) = true :=
  rfl

/-- C7: In every workflow constructed by the seeding scripts, each step's
`phase` field matches the phase list it is placed in. -/
theorem seeded_phase_consistency :
    (allSeededWorkflows.all (fun w =>
      phaseListOk "setup" w.setup_steps
      && phaseListOk "verification" w.verification_steps
      && phaseListOk "agentic" w.agentic_steps
      && phaseListOk "completion" w.completion_steps)) = true :=
  rfl

/-- C8: Within every workflow constructed by the seeding scripts, step ids
are pairwise distinct across the union of the four phase lists. -/
theorem seeded_step_ids_distinct :
    (allSeededWorkflows.all (fun w => nodupB (stepIds w))) = true :=
  rfl

/-- C2: evaluation at the failing input.  seed_check_ground_truth.py
constructs verification steps typed `check` and a gate typed `gate`, neither
of which is among the three valid types that the repository's own rule text
(update_generation_rules_3types.py, seed-schema_context-verification_quality-17)
declares to be the only ones; the other two seeding scripts construct only
validly typed steps. -/
theorem seedCheck_legacy_step_types :
    getStr (SeedCheck.wf_qontinui_web.verification_steps.getD 0 default) "type"
      = some "check"
    ∧ getStr (SeedCheck.wf_qontinui_web.verification_steps.getD 6 default) "type"
      = some "gate"
    ∧ validTypes.contains "check" = false
    ∧ validTypes.contains "gate" = false
    ∧ ((SeedGt.GT_WORKFLOWS ++ SeedUiBridge.GT_WORKFLOWS).all
        (fun w => w.allSteps.all stepTypeValid)) = true :=
  ⟨rfl, rfl, rfl, rfl, rfl⟩

/-- C3 counterexample: the first workflow seed_gt_workflows_to_runner.py
constructs has a non-empty `verification_steps` list containing no gate
step at all, so its terminal element is not a gate. -/
theorem seedGt_no_terminal_gate :
    SeedGt.wf_web.verification_steps.length = 6
    ∧ (SeedGt.wf_web.verification_steps.all (fun s => !isGateB s)) = true
    ∧ isGateB (SeedGt.wf_web.verification_steps.getLastD default) = false :=
  ⟨rfl, rfl, rfl⟩

/-- C3 amended: workflows constructed by seed_check_ground_truth.py have
`verification_steps` consisting of check steps followed by exactly one
terminal gate; the workflows constructed by seed_gt_workflows_to_runner.py
and seed_ui_bridge_ground_truth.py have non-empty `verification_steps`
containing no gate step. -/
theorem seeded_verification_shape :
    (SeedCheck.CHECK_WORKFLOWS.all (fun w =>
        endsWithOneGate w.verification_steps
        && w.verification_steps.dropLast.all
            (fun s => getStr s "type" == some "check"))) = true
    ∧ ((SeedGt.GT_WORKFLOWS ++ SeedUiBridge.GT_WORKFLOWS).all (fun w =>
        !w.verification_steps.isEmpty
        && w.verification_steps.all (fun s => !isGateB s))) = true :=
  ⟨rfl, rfl⟩

/-- C5 counterexample: the navigate step constructed by
seed_ui_bridge_ground_truth.py carries no `url` key (its URL is stored
under `ui_bridge_url`), refuting the claim that a navigate step carries a
`url` field. -/
theorem uiBridge_navigate_no_url_key :
    getStr (SeedUiBridge.wf_nav_settings.setup_steps.getD 0 default)
      "ui_bridge_action" = some "navigate"
    ∧ getVal (SeedUiBridge.wf_nav_settings.setup_steps.getD 0 default)
      "url" = none
    ∧ getStr (SeedUiBridge.wf_nav_settings.setup_steps.getD 0 default)
      "ui_bridge_url" = some "http://localhost:3001/settings" :=
  ⟨rfl, rfl, rfl⟩

/-- C5 amended: every constructed ui_bridge step carries the per-action
required fields under the `ui_bridge_`-prefixed key names the script uses:
navigate carries `ui_bridge_url`, execute carries `ui_bridge_instruction`,
assert carries `ui_bridge_target` and `ui_bridge_assert_type`, plus
`ui_bridge_expected` when an expected value is supplied (text-based
assertions). -/
theorem uiBridge_action_fields :
    ((allSeededWorkflows.all (fun w => w.allSteps.all uiFieldsOk)) = true)
    ∧ (∀ step_id name url phase : String,
        getStr (SeedUiBridge.navigate_step step_id name url phase)
          "ui_bridge_url" = some url)
    ∧ (∀ (step_id name instruction phase : String) (rc rd : Nat),
        getStr (SeedUiBridge.ai_execute_step step_id name instruction phase rc rd)
          "ui_bridge_instruction" = some instruction)
    ∧ (∀ (step_id name target assert_type : String) (expected : Option String)
        (phase : String) (rc rd : Nat),
        getStr (SeedUiBridge.ai_assert_step step_id name target assert_type
            expected phase rc rd) "ui_bridge_target" = some target
        ∧ getStr (SeedUiBridge.ai_assert_step step_id name target assert_type
            expected phase rc rd) "ui_bridge_assert_type" = some assert_type)
    ∧ (∀ (step_id name target assert_type e phase : String) (rc rd : Nat),
        getVal (SeedUiBridge.ai_assert_step step_id name target assert_type
            (some e) phase rc rd) "ui_bridge_expected" = some (Val.str e)) :=
  ⟨rfl, fun _ _ _ _ => rfl, fun _ _ _ _ _ _ => rfl,
   fun _ _ _ _ _ _ _ _ => ⟨rfl, rfl⟩, fun _ _ _ _ _ _ _ _ => rfl⟩

/-- C4: `evaluate(gate, results)` returns Pass iff every id in the gate's
`required_steps` has a result of success in the record; otherwise it
returns Fail carrying exactly the ids that are absent from the record or
recorded as failure. -/
theorem gate_evaluate_characterization (required_steps : List String)
    (results : List (String × Bool)) :
    (evaluate required_steps results = GateOutcome.pass
      ↔ ∀ i ∈ required_steps, results.lookup i = some true)
    ∧ ∀ l, evaluate required_steps results = GateOutcome.fail l
        → (∀ i, i ∈ l ↔ i ∈ required_steps ∧ results.lookup i ≠ some true)
          ∧ l ≠ [] := by
  have hmem : ∀ i : String,
      ((!idSucceeded results i) = true) ↔ ¬ results.lookup i = some true := by
    intro i
    simp [idSucceeded]
  by_cases h :
      (required_steps.filter (fun i => !idSucceeded results i)).isEmpty
  · have hnil : required_steps.filter (fun i => !idSucceeded results i) = [] :=
      List.isEmpty_iff.mp h
    have hall : ∀ i ∈ required_steps, results.lookup i = some true := by
      intro i hi
      by_contra hc
      have hin : i ∈ required_steps.filter (fun i => !idSucceeded results i) :=
        List.mem_filter.mpr ⟨hi, (hmem i).mpr hc⟩
      rw [hnil] at hin
      exact absurd hin (List.not_mem_nil i)
    constructor
    · simp only [evaluate, h, if_true]
      exact ⟨fun _ => hall, fun _ => trivial⟩
    · intro l hl
      simp only [evaluate, h, if_true] at hl
      exact absurd hl (by simp)
  · have hne : required_steps.filter (fun i => !idSucceeded results i) ≠ [] := by
      intro hc
      rw [hc] at h
      exact h rfl
    constructor
    · simp only [evaluate, h]
      constructor
      · intro hc
        exact absurd hc (by simp)
      · intro hall
        exfalso
        apply h
        rw [List.isEmpty_iff]
        apply List.filter_eq_nil_iff.mpr
        intro i hi
        simp [idSucceeded, hall i hi]
    · intro l hl
      simp only [evaluate, h] at hl
      rw [if_neg (by simp [h])] at hl
      injection hl with h2
      subst h2
      refine ⟨?_, hne⟩
      intro i
      rw [List.mem_filter]
      exact and_congr_right (fun _ => hmem i)

/-- C4 witness: the characterization applied at concrete gates and records.
A gate over one succeeded id passes; a gate over a succeeded and a failed id
fails carrying exactly the failed id. -/
theorem gate_evaluate_witness :
    evaluate ["check-a"] [("check-a", true)] = GateOutcome.pass
    ∧ ("check-b" ∈ (["check-b"] : List String)
        ↔ "check-b" ∈ (["check-a", "check-b"] : List String)
          ∧ [("check-a", true), ("check-b", false)].lookup "check-b" ≠ some true)
    ∧ (["check-b"] : List String) ≠ [] :=
  ⟨(gate_evaluate_characterization ["check-a"] [("check-a", true)]).1.mpr
      (by decide),
   ((gate_evaluate_characterization ["check-a", "check-b"]
      [("check-a", true), ("check-b", false)]).2 ["check-b"] (by decide)).1
      "check-b",
   ((gate_evaluate_characterization ["check-a", "check-b"]
      [("check-a", true), ("check-b", false)]).2 ["check-b"] (by decide)).2⟩

/-- C9 counterexample: seed_check_ground_truth.py's `api_delete` returns
`{"ok": False}` on an exception — a dict with neither an `error` key nor a
`message` key, refuting the claim's description of the error dict shapes. -/
theorem seedCheck_api_delete_shape :
    SeedCheck.api_delete (Except.error "connection refused")
      = Val.obj [("ok", Val.bool false)]
    ∧ objGet (SeedCheck.api_delete (Except.error "connection refused"))
        "error" = none
    ∧ objGet (SeedCheck.api_delete (Except.error "connection refused"))
        "message" = none :=
  ⟨rfl, rfl, rfl⟩

/-- C9 amended: every HTTP helper in the scripts is total — for any
exception raised by the underlying request it returns a dict describing the
error (a dict with an `error` key, or with `ok: False`; every `ok: False`
helper except seed_check_ground_truth.py's `api_delete` also carries a
`message` key) rather than propagating the exception. -/
theorem api_helpers_total (e : String) :
    isErrDict (SeedGt.api_post (Except.error e)) = true
    ∧ isErrDict (SeedGt.api_get (Except.error e)) = true
    ∧ isErrDict (SeedGt.api_delete (Except.error e)) = true
    ∧ isErrDict (SeedUiBridge.api_post (Except.error e)) = true
    ∧ isErrDict (SeedUiBridge.api_get (Except.error e)) = true
    ∧ isErrDict (SeedUiBridge.api_delete (Except.error e)) = true
    ∧ isErrDict (SeedUiBridge.api_put (Except.error e)) = true
    ∧ isErrDict (SeedCheck.api_post (Except.error e)) = true
    ∧ isErrDict (SeedCheck.api_put (Except.error e)) = true
    ∧ isErrDict (SeedCheck.api_delete (Except.error e)) = true
    ∧ isErrDict (UpdateRules.api_put (Except.error e)) = true
    ∧ isErrDict (UpdateRules.api_get (Except.error e)) = true
    ∧ isErrDict (UpdateRules.api_delete (Except.error e)) = true
    ∧ isErrDict (SeedCheckRules.api_get (Except.error e)) = true
    ∧ isErrDict (SeedCheckRules.api_post (Except.error e)) = true
    ∧ objGet (SeedUiBridge.api_put (Except.error e)) "message"
        = some (Val.str e)
    ∧ objGet (SeedCheck.api_post (Except.error e)) "message"
        = some (Val.str e)
    ∧ objGet (SeedCheck.api_put (Except.error e)) "message"
        = some (Val.str e) :=
  ⟨rfl, rfl, rfl, rfl, rfl, rfl, rfl, rfl, rfl, rfl, rfl, rfl, rfl, rfl, rfl,
   rfl, rfl, rfl⟩

/-- Appending a score to a category map keeps every category's score list
non-empty. -/
theorem appendScore_sndNe (cats : List (String × List Rat)) (cat : String)
    (s : Rat) (h : ∀ p ∈ cats, p.2 ≠ []) :
    ∀ p ∈ AnalyzeEval.appendScore cats cat s, p.2 ≠ [] := by
  induction cats with
  | nil =>
      intro p hp
      simp only [AnalyzeEval.appendScore, List.mem_singleton] at hp
      subst hp
      simp
  | cons kv rest ih =>
      obtain ⟨k, v⟩ := kv
      intro p hp
      simp only [AnalyzeEval.appendScore] at hp
      by_cases hk : k = cat
      · rw [if_pos hk] at hp
        rcases List.mem_cons.mp hp with hp | hp
        · subst hp
          simp
        · exact h p (List.mem_cons_of_mem _ hp)
      · rw [if_neg hk] at hp
        rcases List.mem_cons.mp hp with hp | hp
        · subst hp
          exact h _ (List.mem_cons_self _ _)
        · exact ih (fun q hq => h q (List.mem_cons_of_mem _ hq)) p hp

/-- The category-building loop only ever holds non-empty score lists. -/
theorem buildCats_loop_sndNe (rs : List AnalyzeEval.EvalRec) :
    ∀ acc : List (String × List Rat), (∀ p ∈ acc, p.2 ≠ []) →
    ∀ p ∈ rs.foldl (fun cats r => AnalyzeEval.appendScore cats
        (AnalyzeEval.catOf r.test_prompt_id) (r.overall_score.getD 0)) acc,
      p.2 ≠ [] := by
  induction rs with
  | nil => exact fun acc hacc p hp => hacc p hp
  | cons r rest ih =>
      intro acc hacc p hp
      simp only [List.foldl_cons] at hp
      exact ih _ (appendScore_sndNe _ _ _ hacc) p hp

/-- C10: in analyze_eval.py every computed average has a nonzero
denominator: a dimension average falls back to 0 on an empty value list and
otherwise divides by the non-empty list's length, and every per-category
score list is non-empty because a category key is only created at the
moment a score is appended to it. -/
theorem analyze_avg_denominators :
    (∀ (scored : List AnalyzeEval.EvalRec) (d : String),
        AnalyzeEval.dimAvg scored d ≠ none)
    ∧ (∀ (results : List AnalyzeEval.EvalRec) (p : String × List Rat),
        p ∈ AnalyzeEval.buildCats (AnalyzeEval.scoredOf results)
        → p.2 ≠ [] ∧ AnalyzeEval.catAvg p.2 ≠ none) := by
  constructor
  · intro scored d
    unfold AnalyzeEval.dimAvg
    by_cases h : (AnalyzeEval.dimVals scored d).isEmpty
    · simp [h]
    · simp only [h, Bool.false_eq_true, if_false]
      unfold AnalyzeEval.pyDiv
      rw [if_neg]
      · simp
      · intro hc
        apply h
        rw [List.isEmpty_iff]
        exact List.length_eq_zero.mp hc
  · intro results p hp
    have hne : p.2 ≠ [] := by
      apply buildCats_loop_sndNe (AnalyzeEval.scoredOf results) [] _ p hp
      intro q hq
      exact absurd hq (List.not_mem_nil q)
    refine ⟨hne, ?_⟩
    unfold AnalyzeEval.catAvg AnalyzeEval.pyDiv
    rw [if_neg]
    · simp
    · intro hc
      exact hne (List.length_eq_zero.mp hc)

/-- C10 witness: the denominator safety applied at a concrete result set
with one scored record in the `curated(gt)` category. -/
theorem analyze_avg_witness :
    AnalyzeEval.dimAvg [AnalyzeEval.sampleRec] "determinism" ≠ none
    ∧ (([(4 : Rat)] : List Rat) ≠ []
        ∧ AnalyzeEval.catAvg [(4 : Rat)] ≠ none) :=
  ⟨analyze_avg_denominators.1 [AnalyzeEval.sampleRec] "determinism",
   analyze_avg_denominators.2 [AnalyzeEval.sampleRec]
     ("curated(gt)", [(4 : Rat)]) (by decide)⟩
